import Mathlib

/-!
# Verification of the MSCKF-SLAM update core (`x::MsckfSlamUpdate`)

Shallow embedding of `src/include/x/vio/msckf_slam_update.h` from the
`x_multi_agent` repository. The repository ships only the class declaration;
the constructor body and `processOneTrack` body (the .cpp), as well as the
types declared in `x/vio/types.h` and `x/vision/triangulation.h`, are not in
the source tree. Those parts are modelled from the specification, as marked
in the doc comments below. Scalars (`double` in the source) are modelled as
rationals; Eigen matrices as lists of rows.
-/

namespace X

/-- Modelled from the spec: a normalized 2D feature observation
(`x::Feature` from `x/vio/types.h`, which is not in src/). -/
structure Feature where
  fx : ℚ
  fy : ℚ
deriving DecidableEq, Repr

/-- Modelled from the spec: a 3D cartesian point (`Eigen::Vector3d`). -/
structure Vector3d where
  vx : ℚ
  vy : ℚ
  vz : ℚ
deriving DecidableEq, Repr

/-- Modelled from the spec: a camera attitude, i.e. a quaternion
(`x::Attitude` from `x/vio/types.h`, which is not in src/). -/
structure Attitude where
  ax : ℚ
  ay : ℚ
  az : ℚ
  aw : ℚ
deriving DecidableEq, Repr

/-- Modelled from the spec: a feature track (`x::Track`): the ordered
sequence of normalized 2D observations of one feature, one per observing
pose, implicitly mapped to the most recent poses of the sliding window. -/
abbrev Track := List Feature

/-- `x::TrackList`: ordered collection of tracks; processing order equals
row order in all stacked outputs. -/
abbrev TrackList := List Track

/-- `x::AttitudeList`: camera quaternion states of the sliding window. -/
abbrev AttitudeList := List Attitude

/-- `x::TranslationList`: camera position states of the sliding window. -/
abbrev TranslationList := List Vector3d

/-- `x::Vector3dArray`: ordered list of 3D cartesian points. -/
abbrev Vector3dArray := List Vector3d

/-- A real matrix as an ordered list of rows (`Eigen::MatrixXd`). -/
abbrev Matrix := List (List ℚ)

/-- Modelled from the spec: `x::MsckfSlamMatrices` (declared in
`x/vio/types.h`, which is not in src/): the MSCKF-SLAM initialization
bundle — feature-state Jacobian block `H1`, pose/state Jacobian block `H2`,
stacked residual `r1`, diagonal measurement-noise model `S_diag`, and the
initial inverse-depth parameter estimates, one per accepted feature. -/
structure MsckfSlamMatrices where
  H1 : Matrix
  H2 : Matrix
  r1 : List ℚ
  S_diag : List ℚ
  features : List Vector3d
deriving DecidableEq, Repr

/-- Modelled from the spec: the `Triangulation` collaborator
(`x/vision/triangulation.h`, not in src/) together with the per-track
numerical algebra the spec leaves to external literature (the reprojection
Jacobian rows after nullspace projection, the Mahalanobis-type gate, and
the initial inverse-depth estimate). `triangulate` returns the best-effort
3D point estimate together with a success flag; `rowH1`/`rowH2`/`rowRes`
give, for a triangulated track and a row index, the entries of one row of
the projected feature Jacobian, pose Jacobian and residual; `gate` is the
statistical consistency test; `initEstimate` the inverse-depth triple of
an accepted feature. The track index `j` is passed to the row and estimate
functions because column placement in the bundle depends on it. -/
structure Numerics where
  triangulate : Track → AttitudeList → TranslationList → Matrix → Vector3d × Bool
  rowH1 : Nat → Track → AttitudeList → TranslationList → Vector3d → Nat → List ℚ
  rowH2 : Nat → Track → AttitudeList → TranslationList → Vector3d → Nat → List ℚ
  rowRes : Nat → Track → AttitudeList → TranslationList → Vector3d → Nat → ℚ
  gate : Track → AttitudeList → TranslationList → Matrix → Vector3d → Bool
  initEstimate : Nat → Track → AttitudeList → TranslationList → Vector3d → Vector3d

/-- Number of measurement rows contributed by one track: two rows
(one per normalized-coordinate axis) per observation. -/
def trackRows (track : Track) : Nat := 2 * track.length

/-- The state held by an `x::MsckfSlamUpdate` object: the initialization
matrices and the two classified 3D point lists. -/
structure MsckfSlamUpdate where
  init_mats : MsckfSlamMatrices
  inliers : Vector3dArray
  outliers : Vector3dArray
deriving DecidableEq, Repr

/-- The empty initialization bundle (default-constructed
`x::MsckfSlamMatrices`: 0-sized Eigen matrices, empty vectors). -/
def emptyMats : MsckfSlamMatrices :=
  { H1 := [], H2 := [], r1 := [], S_diag := [], features := [] }

/-- The default constructor `MsckfSlamUpdate(){}`: all members
default-constructed. -/
def defaultMsckfSlamUpdate : MsckfSlamUpdate :=
  { init_mats := emptyMats, inliers := [], outliers := [] }

/-- Getter `getInitMats`: constant reference to the initialization
matrices. -/
def MsckfSlamUpdate.getInitMats (u : MsckfSlamUpdate) : MsckfSlamMatrices :=
  u.init_mats

/-- Getter `getInliers`: constant reference to the inlier 3D points. -/
def MsckfSlamUpdate.getInliers (u : MsckfSlamUpdate) : Vector3dArray :=
  u.inliers

/-- Getter `getOutliers`: constant reference to the outlier 3D points. -/
def MsckfSlamUpdate.getOutliers (u : MsckfSlamUpdate) : Vector3dArray :=
  u.outliers

/-- The full per-track feature-Jacobian block: `2 × |track|` rows built
from the abstract row function. -/
def blockH1 (nm : Numerics) (j : Nat) (track : Track) (C_q_G : AttitudeList)
    (G_p_C : TranslationList) (pt : Vector3d) : Matrix :=
  (List.range (trackRows track)).map (nm.rowH1 j track C_q_G G_p_C pt)

/-- The full per-track pose-Jacobian block: `2 × |track|` rows. -/
def blockH2 (nm : Numerics) (j : Nat) (track : Track) (C_q_G : AttitudeList)
    (G_p_C : TranslationList) (pt : Vector3d) : Matrix :=
  (List.range (trackRows track)).map (nm.rowH2 j track C_q_G G_p_C pt)

/-- The full per-track residual block: `2 × |track|` entries. -/
def blockRes (nm : Numerics) (j : Nat) (track : Track) (C_q_G : AttitudeList)
    (G_p_C : TranslationList) (pt : Vector3d) : List ℚ :=
  (List.range (trackRows track)).map (nm.rowRes j track C_q_G G_p_C pt)

/-- Modelled from the spec: `MsckfSlamUpdate::processOneTrack` (its body is
not in src/; the header gives the signature and argument semantics).
Triangulates the track; on failure the point estimate goes to `outliers_`
and no rows are produced. On success the `2 × |track|` projected
residual/Jacobian rows are formed; the statistical gate then either accepts
the track — appending its rows to the bundle, its inverse-depth estimate to
the feature list, its point to `inliers_`, and advancing both row counters
`row_h` (full block) and `row1` (bundle) — or rejects it, routing the point
to `outliers_` and advancing only `row_h`. -/
def processOneTrack (track : Track) (C_q_G : AttitudeList)
    (G_p_C : TranslationList) (triangulator : Numerics) (P : Matrix)
    (n_poses_max : Nat) (var_img : ℚ) (j : Nat) (u : MsckfSlamUpdate)
    (row_h row1 : Nat) : MsckfSlamUpdate × Nat × Nat :=
  let tri := triangulator.triangulate track C_q_G G_p_C P
  if tri.2 then
    if triangulator.gate track C_q_G G_p_C P tri.1 then
      ({ init_mats :=
           { H1 := u.init_mats.H1 ++ blockH1 triangulator j track C_q_G G_p_C tri.1
             H2 := u.init_mats.H2 ++ blockH2 triangulator j track C_q_G G_p_C tri.1
             r1 := u.init_mats.r1 ++ blockRes triangulator j track C_q_G G_p_C tri.1
             S_diag := u.init_mats.S_diag ++ List.replicate (trackRows track) var_img
             features := u.init_mats.features
               ++ [triangulator.initEstimate j track C_q_G G_p_C tri.1] }
         inliers := u.inliers ++ [tri.1]
         outliers := u.outliers },
       row_h + trackRows track, row1 + trackRows track)
    else
      ({ u with outliers := u.outliers ++ [tri.1] },
       row_h + trackRows track, row1)
  else
    ({ u with outliers := u.outliers ++ [tri.1] }, row_h, row1)

/-- Modelled from the spec: the batch orchestrator loop of the constructor —
strictly one pass over the tracks in `TrackList` order, invoking
`processOneTrack` once per track with the running track index and the two
row counters threaded through. -/
def runTracks (C_q_G : AttitudeList) (G_p_C : TranslationList)
    (triangulator : Numerics) (P : Matrix) (n_poses_max : Nat) (var_img : ℚ) :
    List Track → Nat → MsckfSlamUpdate × Nat × Nat → MsckfSlamUpdate × Nat × Nat
  | [], _, acc => acc
  | t :: ts, j, acc =>
      runTracks C_q_G G_p_C triangulator P n_poses_max var_img ts (j + 1)
        (processOneTrack t C_q_G G_p_C triangulator P n_poses_max var_img j
          acc.1 acc.2.1 acc.2.2)

/-- Precondition-violation failure modes: defects in upstream window/track
management, fatal to the call. -/
inductive PrecondError where
  | poseListMismatch
  | windowOverflow
  | poseIndexOutOfRange
deriving DecidableEq, Repr

/-- Modelled from the spec: the main constructor
`MsckfSlamUpdate(trks, quats, poss, triangulator, cov_s, n_poses_max,
sigma_img)` (its body is not in src/; the header gives the signature).
Precondition violations — mismatched pose-list lengths, pose lists longer
than the maximum window size, or a track referencing a pose index outside
the window — are fatal to the call. Otherwise the full update matrix
construction job is one pass over the tracks from the default-constructed
state, with the measurement variance `sigma_img²`. -/
def msckfSlamUpdate (trks : TrackList) (quats : AttitudeList)
    (poss : TranslationList) (triangulator : Numerics) (cov_s : Matrix)
    (n_poses_max : Nat) (sigma_img : ℚ) :
    Except PrecondError MsckfSlamUpdate :=
  if quats.length ≠ poss.length then .error .poseListMismatch
  else if n_poses_max < quats.length then .error .windowOverflow
  else if trks.any (fun t => quats.length < t.length) then
    .error .poseIndexOutOfRange
  else
    .ok (runTracks quats poss triangulator cov_s n_poses_max
      (sigma_img * sigma_img) trks 0 (defaultMsckfSlamUpdate, 0, 0)).1

/-- The triangulation outcome (point estimate, success flag) of one track. -/
def trackTri (tr : Numerics) (C_q_G : AttitudeList) (G_p_C : TranslationList)
    (P : Matrix) (t : Track) : Vector3d × Bool :=
  tr.triangulate t C_q_G G_p_C P

/-- A track is accepted when triangulation succeeds and the statistical
gate passes. -/
def trackAccepted (tr : Numerics) (C_q_G : AttitudeList)
    (G_p_C : TranslationList) (P : Matrix) (t : Track) : Bool :=
  (trackTri tr C_q_G G_p_C P t).2
    && tr.gate t C_q_G G_p_C P (trackTri tr C_q_G G_p_C P t).1

/-- Rows a track with index `j` contributes to the bundle block `H1`:
its full block when accepted, none otherwise. -/
def trackContribH1 (tr : Numerics) (C_q_G : AttitudeList)
    (G_p_C : TranslationList) (P : Matrix) (j : Nat) (t : Track) : Matrix :=
  if trackAccepted tr C_q_G G_p_C P t then
    blockH1 tr j t C_q_G G_p_C (trackTri tr C_q_G G_p_C P t).1
  else []

/-- Rows a track contributes to the bundle block `H2`. -/
def trackContribH2 (tr : Numerics) (C_q_G : AttitudeList)
    (G_p_C : TranslationList) (P : Matrix) (j : Nat) (t : Track) : Matrix :=
  if trackAccepted tr C_q_G G_p_C P t then
    blockH2 tr j t C_q_G G_p_C (trackTri tr C_q_G G_p_C P t).1
  else []

/-- Entries a track contributes to the stacked residual `r1`. -/
def trackContribRes (tr : Numerics) (C_q_G : AttitudeList)
    (G_p_C : TranslationList) (P : Matrix) (j : Nat) (t : Track) : List ℚ :=
  if trackAccepted tr C_q_G G_p_C P t then
    blockRes tr j t C_q_G G_p_C (trackTri tr C_q_G G_p_C P t).1
  else []

/-- The bundle block `H1` stacked over a track list starting at index `j`:
the concatenation, in track-list order, of the per-track contributions. -/
def stackH1 (tr : Numerics) (C_q_G : AttitudeList) (G_p_C : TranslationList)
    (P : Matrix) (j : Nat) (ts : List Track) : Matrix :=
  ((ts.enumFrom j).map fun pr => trackContribH1 tr C_q_G G_p_C P pr.1 pr.2).join

/-- The bundle block `H2` stacked over a track list. -/
def stackH2 (tr : Numerics) (C_q_G : AttitudeList) (G_p_C : TranslationList)
    (P : Matrix) (j : Nat) (ts : List Track) : Matrix :=
  ((ts.enumFrom j).map fun pr => trackContribH2 tr C_q_G G_p_C P pr.1 pr.2).join

/-- The stacked residual over a track list. -/
def stackRes (tr : Numerics) (C_q_G : AttitudeList) (G_p_C : TranslationList)
    (P : Matrix) (j : Nat) (ts : List Track) : List ℚ :=
  ((ts.enumFrom j).map fun pr => trackContribRes tr C_q_G G_p_C P pr.1 pr.2).join

/-- The stacked noise diagonal over a track list. -/
def stackS (tr : Numerics) (C_q_G : AttitudeList) (G_p_C : TranslationList)
    (P : Matrix) (v : ℚ) (ts : List Track) : List ℚ :=
  (ts.map fun t =>
    if trackAccepted tr C_q_G G_p_C P t then List.replicate (trackRows t) v
    else []).join

/-- The stacked inverse-depth estimates over a track list. -/
def stackFeat (tr : Numerics) (C_q_G : AttitudeList) (G_p_C : TranslationList)
    (P : Matrix) (j : Nat) (ts : List Track) : List Vector3d :=
  ((ts.enumFrom j).map fun pr =>
    if trackAccepted tr C_q_G G_p_C P pr.2 then
      [tr.initEstimate pr.1 pr.2 C_q_G G_p_C (trackTri tr C_q_G G_p_C P pr.2).1]
    else []).join

/-- The inlier points of a track list: the triangulated points of the
accepted tracks, in order. -/
def inlierPts (tr : Numerics) (C_q_G : AttitudeList) (G_p_C : TranslationList)
    (P : Matrix) (ts : List Track) : Vector3dArray :=
  (ts.filter (trackAccepted tr C_q_G G_p_C P)).map
    fun t => (trackTri tr C_q_G G_p_C P t).1

/-- The outlier points of a track list: the point estimates of the
non-accepted tracks, in order. -/
def outlierPts (tr : Numerics) (C_q_G : AttitudeList)
    (G_p_C : TranslationList) (P : Matrix) (ts : List Track) : Vector3dArray :=
  (ts.filter fun t => !trackAccepted tr C_q_G G_p_C P t).map
    fun t => (trackTri tr C_q_G G_p_C P t).1

/-- Total rows of the full Jacobian stack: all tracks that triangulate. -/
def triRowsSum (tr : Numerics) (C_q_G : AttitudeList)
    (G_p_C : TranslationList) (P : Matrix) (ts : List Track) : Nat :=
  2 * ((ts.filter fun t => (trackTri tr C_q_G G_p_C P t).2).map
    List.length).sum

/-- Total rows of the bundle stack: all accepted tracks. -/
def accRowsSum (tr : Numerics) (C_q_G : AttitudeList)
    (G_p_C : TranslationList) (P : Matrix) (ts : List Track) : Nat :=
  2 * ((ts.filter (trackAccepted tr C_q_G G_p_C P)).map List.length).sum

lemma blockH1_length (tr : Numerics) (j : Nat) (t : Track)
    (C_q_G : AttitudeList) (G_p_C : TranslationList) (pt : Vector3d) :
    (blockH1 tr j t C_q_G G_p_C pt).length = 2 * t.length := by
  simp [blockH1, trackRows]

lemma blockH2_length (tr : Numerics) (j : Nat) (t : Track)
    (C_q_G : AttitudeList) (G_p_C : TranslationList) (pt : Vector3d) :
    (blockH2 tr j t C_q_G G_p_C pt).length = 2 * t.length := by
  simp [blockH2, trackRows]

/-- Closed form of the orchestrator loop: starting from any accumulated
state, one pass appends exactly the stacked per-track contributions and
advances the two row counters by the full-block and bundle row totals. -/
lemma runTracks_closed (C_q_G : AttitudeList) (G_p_C : TranslationList)
    (tr : Numerics) (P : Matrix) (n : Nat) (v : ℚ) (ts : List Track) :
    ∀ (j : Nat) (u : MsckfSlamUpdate) (rh r1 : Nat),
    runTracks C_q_G G_p_C tr P n v ts j (u, rh, r1) =
      ({ init_mats :=
           { H1 := u.init_mats.H1 ++ stackH1 tr C_q_G G_p_C P j ts
             H2 := u.init_mats.H2 ++ stackH2 tr C_q_G G_p_C P j ts
             r1 := u.init_mats.r1 ++ stackRes tr C_q_G G_p_C P j ts
             S_diag := u.init_mats.S_diag ++ stackS tr C_q_G G_p_C P v ts
             features := u.init_mats.features
               ++ stackFeat tr C_q_G G_p_C P j ts }
         inliers := u.inliers ++ inlierPts tr C_q_G G_p_C P ts
         outliers := u.outliers ++ outlierPts tr C_q_G G_p_C P ts },
       rh + triRowsSum tr C_q_G G_p_C P ts,
       r1 + accRowsSum tr C_q_G G_p_C P ts) := by
  induction ts with
  | nil =>
      intro j u rh r1
      simp [runTracks, stackH1, stackH2, stackRes, stackS, stackFeat,
        inlierPts, outlierPts, triRowsSum, accRowsSum, List.enumFrom]
  | cons t ts ih =>
      intro j u rh r1
      rw [runTracks]
      by_cases h2 : (trackTri tr C_q_G G_p_C P t).2
      · have h2' : (tr.triangulate t C_q_G G_p_C P).2 = true := h2
        by_cases hg : tr.gate t C_q_G G_p_C P (trackTri tr C_q_G G_p_C P t).1
        · have hacc : trackAccepted tr C_q_G G_p_C P t = true := by
            simp [trackAccepted, h2, hg]
          simp only [processOneTrack]
          rw [if_pos (by simpa [trackTri] using h2),
            if_pos (by simpa [trackTri] using hg), ih]
          simp [stackH1, stackH2, stackRes, stackS, stackFeat, inlierPts,
            outlierPts, triRowsSum, accRowsSum, List.enumFrom, hacc, h2,
            trackContribH1, trackContribH2, trackContribRes, trackRows,
            Nat.mul_add, Nat.add_assoc, Nat.add_comm, Nat.add_left_comm,
            List.append_assoc, trackTri, h2', List.filter_cons]
        · have hacc : trackAccepted tr C_q_G G_p_C P t = false := by
            simp [trackAccepted, h2, hg]
          simp only [processOneTrack]
          rw [if_pos (by simpa [trackTri] using h2),
            if_neg (by simpa [trackTri] using hg), ih]
          simp [stackH1, stackH2, stackRes, stackS, stackFeat, inlierPts,
            outlierPts, triRowsSum, accRowsSum, List.enumFrom, hacc, h2,
            trackContribH1, trackContribH2, trackContribRes, trackRows,
            Nat.mul_add, Nat.add_assoc, Nat.add_comm, Nat.add_left_comm,
            List.append_assoc, trackTri, h2', List.filter_cons]
      · have h2' : (tr.triangulate t C_q_G G_p_C P).2 = false := by
          simpa [trackTri] using h2
        have hacc : trackAccepted tr C_q_G G_p_C P t = false := by
          simp [trackAccepted, h2]
        simp only [processOneTrack]
        rw [if_neg (by simpa [trackTri] using h2), ih]
        simp [stackH1, stackH2, stackRes, stackS, stackFeat, inlierPts,
          outlierPts, triRowsSum, accRowsSum, List.enumFrom, hacc, h2,
          trackContribH1, trackContribH2, trackContribRes,
          List.append_assoc, trackTri, h2', List.filter_cons]

lemma stackH1_cons (tr : Numerics) (C_q_G : AttitudeList)
    (G_p_C : TranslationList) (P : Matrix) (j : Nat) (t : Track)
    (ts : List Track) :
    stackH1 tr C_q_G G_p_C P j (t :: ts) =
      trackContribH1 tr C_q_G G_p_C P j t
        ++ stackH1 tr C_q_G G_p_C P (j + 1) ts := by
  simp [stackH1, List.enumFrom]

lemma stackH2_cons (tr : Numerics) (C_q_G : AttitudeList)
    (G_p_C : TranslationList) (P : Matrix) (j : Nat) (t : Track)
    (ts : List Track) :
    stackH2 tr C_q_G G_p_C P j (t :: ts) =
      trackContribH2 tr C_q_G G_p_C P j t
        ++ stackH2 tr C_q_G G_p_C P (j + 1) ts := by
  simp [stackH2, List.enumFrom]

lemma stackRes_cons (tr : Numerics) (C_q_G : AttitudeList)
    (G_p_C : TranslationList) (P : Matrix) (j : Nat) (t : Track)
    (ts : List Track) :
    stackRes tr C_q_G G_p_C P j (t :: ts) =
      trackContribRes tr C_q_G G_p_C P j t
        ++ stackRes tr C_q_G G_p_C P (j + 1) ts := by
  simp [stackRes, List.enumFrom]

lemma stackS_cons (tr : Numerics) (C_q_G : AttitudeList)
    (G_p_C : TranslationList) (P : Matrix) (v : ℚ) (t : Track)
    (ts : List Track) :
    stackS tr C_q_G G_p_C P v (t :: ts) =
      (if trackAccepted tr C_q_G G_p_C P t then
        List.replicate (trackRows t) v else [])
        ++ stackS tr C_q_G G_p_C P v ts := by
  simp [stackS]

lemma stackFeat_cons (tr : Numerics) (C_q_G : AttitudeList)
    (G_p_C : TranslationList) (P : Matrix) (j : Nat) (t : Track)
    (ts : List Track) :
    stackFeat tr C_q_G G_p_C P j (t :: ts) =
      (if trackAccepted tr C_q_G G_p_C P t then
        [tr.initEstimate j t C_q_G G_p_C (trackTri tr C_q_G G_p_C P t).1]
      else [])
        ++ stackFeat tr C_q_G G_p_C P (j + 1) ts := by
  simp [stackFeat, List.enumFrom]

lemma inlierPts_cons (tr : Numerics) (C_q_G : AttitudeList)
    (G_p_C : TranslationList) (P : Matrix) (t : Track) (ts : List Track) :
    inlierPts tr C_q_G G_p_C P (t :: ts) =
      (if trackAccepted tr C_q_G G_p_C P t then
        [(trackTri tr C_q_G G_p_C P t).1] else [])
        ++ inlierPts tr C_q_G G_p_C P ts := by
  by_cases h : trackAccepted tr C_q_G G_p_C P t <;>
    simp [inlierPts, List.filter_cons, h]

lemma outlierPts_cons (tr : Numerics) (C_q_G : AttitudeList)
    (G_p_C : TranslationList) (P : Matrix) (t : Track) (ts : List Track) :
    outlierPts tr C_q_G G_p_C P (t :: ts) =
      (if trackAccepted tr C_q_G G_p_C P t then []
        else [(trackTri tr C_q_G G_p_C P t).1])
        ++ outlierPts tr C_q_G G_p_C P ts := by
  by_cases h : trackAccepted tr C_q_G G_p_C P t <;>
    simp [outlierPts, List.filter_cons, h]

/-- Every processed track lands in exactly one of the two point lists. -/
lemma points_partition (tr : Numerics) (C_q_G : AttitudeList)
    (G_p_C : TranslationList) (P : Matrix) (ts : List Track) :
    (inlierPts tr C_q_G G_p_C P ts).length
      + (outlierPts tr C_q_G G_p_C P ts).length = ts.length := by
  induction ts with
  | nil => simp [inlierPts, outlierPts]
  | cons t ts ih =>
      by_cases h : trackAccepted tr C_q_G G_p_C P t <;>
        simp [inlierPts_cons, outlierPts_cons, h] <;> omega

/-- The stacked `H1` block has `2 × Σ |track|` rows over the accepted
tracks. -/
lemma stackH1_length (tr : Numerics) (C_q_G : AttitudeList)
    (G_p_C : TranslationList) (P : Matrix) (j : Nat) (ts : List Track) :
    (stackH1 tr C_q_G G_p_C P j ts).length =
      2 * ((ts.filter (trackAccepted tr C_q_G G_p_C P)).map
        List.length).sum := by
  induction ts generalizing j with
  | nil => simp [stackH1, List.enumFrom]
  | cons t ts ih =>
      by_cases h : trackAccepted tr C_q_G G_p_C P t <;>
        simp [stackH1_cons, trackContribH1, h, blockH1_length,
          List.filter_cons, ih, Nat.mul_add]

/-- Same row count for the stacked `H2` block. -/
lemma stackH2_length (tr : Numerics) (C_q_G : AttitudeList)
    (G_p_C : TranslationList) (P : Matrix) (j : Nat) (ts : List Track) :
    (stackH2 tr C_q_G G_p_C P j ts).length =
      2 * ((ts.filter (trackAccepted tr C_q_G G_p_C P)).map
        List.length).sum := by
  induction ts generalizing j with
  | nil => simp [stackH2, List.enumFrom]
  | cons t ts ih =>
      by_cases h : trackAccepted tr C_q_G G_p_C P t <;>
        simp [stackH2_cons, trackContribH2, h, blockH2_length,
          List.filter_cons, ih, Nat.mul_add]

/-- Same row count for the stacked residual. -/
lemma stackRes_length (tr : Numerics) (C_q_G : AttitudeList)
    (G_p_C : TranslationList) (P : Matrix) (j : Nat) (ts : List Track) :
    (stackRes tr C_q_G G_p_C P j ts).length =
      2 * ((ts.filter (trackAccepted tr C_q_G G_p_C P)).map
        List.length).sum := by
  induction ts generalizing j with
  | nil => simp [stackRes, List.enumFrom]
  | cons t ts ih =>
      by_cases h : trackAccepted tr C_q_G G_p_C P t <;>
        simp [stackRes_cons, trackContribRes, h, blockRes, trackRows,
          List.filter_cons, ih, Nat.mul_add]

/-- Whether the call took the fatal precondition-violation path. -/
def isPrecondFailure (r : Except PrecondError MsckfSlamUpdate) : Bool :=
  match r with
  | .error _ => true
  | .ok _ => false

/-- Modelled from the spec: the caller's store — the error-state covariance,
the two pose lists and the update object — through which the constructor
and `processOneTrack` act. The covariance and pose lists are read-only
inputs; only the object's members are written. -/
structure Store where
  cov : Matrix
  quats : AttitudeList
  poss : TranslationList
  obj : MsckfSlamUpdate
deriving DecidableEq, Repr

/-- The constructor acting on the caller's store: reads the pose lists and
covariance from the store and writes only the object. -/
def msckfSlamUpdateStore (trks : TrackList) (triangulator : Numerics)
    (n_poses_max : Nat) (sigma_img : ℚ) (s : Store) :
    Except PrecondError Store :=
  match msckfSlamUpdate trks s.quats s.poss triangulator s.cov n_poses_max
    sigma_img with
  | .error e => .error e
  | .ok u => .ok { s with obj := u }

/-- `processOneTrack` acting on the caller's store. -/
def processOneTrackStore (track : Track) (triangulator : Numerics)
    (n_poses_max : Nat) (var_img : ℚ) (j row_h row1 : Nat) (s : Store) :
    Store × Nat × Nat :=
  let r := processOneTrack track s.quats s.poss triangulator s.cov
    n_poses_max var_img j s.obj row_h row1
  ({ s with obj := r.1 }, r.2)

/-- Getter `getInitMats` acting on the store: observationally pure. -/
def getInitMatsStore (s : Store) : MsckfSlamMatrices × Store :=
  (s.obj.getInitMats, s)

/-- Getter `getInliers` acting on the store: observationally pure. -/
def getInliersStore (s : Store) : Vector3dArray × Store :=
  (s.obj.getInliers, s)

/-- Getter `getOutliers` acting on the store: observationally pure. -/
def getOutliersStore (s : Store) : Vector3dArray × Store :=
  (s.obj.getOutliers, s)

/-! ## Concrete instances used to exercise the definitions -/

/-- A concrete numerics instance: triangulation succeeds on at least two
observations, the gate accepts tracks of at most two observations. -/
def demoNumerics : Numerics :=
  { triangulate := fun t _ _ _ => (⟨1, 2, 3⟩, decide (2 ≤ t.length))
    rowH1 := fun j _ _ _ pt i => [pt.vx, (j : ℚ), (i : ℚ)]
    rowH2 := fun j _ _ _ pt i => [pt.vy + (j : ℚ), (i : ℚ)]
    rowRes := fun _ _ _ _ pt i => pt.vz + (i : ℚ)
    gate := fun t _ _ _ _ => decide (t.length ≤ 2)
    initEstimate := fun j _ _ _ pt => ⟨pt.vx, pt.vy, (j : ℚ)⟩ }

/-- A two-pose window of attitudes. -/
def demoQuats : AttitudeList := [⟨0, 0, 0, 1⟩, ⟨0, 0, 0, 1⟩]

/-- A two-pose window of positions. -/
def demoPoss : TranslationList := [⟨0, 0, 0⟩, ⟨1, 0, 0⟩]

/-- A concrete 2×2 covariance. -/
def demoCov : Matrix := [[1, 0], [0, 1]]

/-- A concrete normalized observation. -/
def demoFeature : Feature := ⟨1/2, 1/3⟩

/-- Two tracks: the first triangulates and is accepted, the second fails
triangulation. -/
def demoTrks : TrackList := [[demoFeature, demoFeature], [demoFeature]]

/-- The update object built from the demo inputs. -/
def demoResult : MsckfSlamUpdate :=
  (msckfSlamUpdate demoTrks demoQuats demoPoss demoNumerics demoCov 2
    (1/10)).toOption.getD defaultMsckfSlamUpdate

/-- A store holding the demo inputs. -/
def demoStore : Store :=
  { cov := demoCov, quats := demoQuats, poss := demoPoss,
    obj := defaultMsckfSlamUpdate }

/-- The demo store after construction. -/
def demoStoreResult : Store := { demoStore with obj := demoResult }

/-! ## Claims -/

/-- C1: after construction of an `MsckfSlamUpdate`, each processed track's
3D point is in exactly one of the two classified lists, so the lengths of
`getInliers()` and `getOutliers()` sum to the length of the input
`TrackList`. -/
theorem msckf_C1_classification_total (trks : TrackList)
    (quats : AttitudeList) (poss : TranslationList) (tr : Numerics)
    (cov : Matrix) (n : Nat) (sg : ℚ) (u : MsckfSlamUpdate)
    (h : msckfSlamUpdate trks quats poss tr cov n sg = .ok u) :
    u.getInliers.length + u.getOutliers.length = trks.length := by
  unfold msckfSlamUpdate at h
  split at h
  · exact absurd h (by simp)
  · split at h
    · exact absurd h (by simp)
    · split at h
      · exact absurd h (by simp)
      · simp only [Except.ok.injEq] at h
        subst h
        rw [runTracks_closed]
        simpa [MsckfSlamUpdate.getInliers, MsckfSlamUpdate.getOutliers,
          defaultMsckfSlamUpdate] using
          points_partition tr quats poss cov trks

theorem msckf_C1_witness :
    demoResult.getInliers.length + demoResult.getOutliers.length
      = demoTrks.length :=
  msckf_C1_classification_total demoTrks demoQuats demoPoss demoNumerics
    demoCov 2 (1/10) demoResult (by rfl)

/-- C2: the row count of the stacked output bundle returned by
`getInitMats()` equals `2 ×` the sum of observation counts over the
accepted (inlier) tracks; rejected tracks contribute zero rows (the sum
ranges only over the tracks passing the acceptance test). -/
theorem msckf_C2_bundle_row_count (trks : TrackList)
    (quats : AttitudeList) (poss : TranslationList) (tr : Numerics)
    (cov : Matrix) (n : Nat) (sg : ℚ) (u : MsckfSlamUpdate)
    (h : msckfSlamUpdate trks quats poss tr cov n sg = .ok u) :
    u.getInitMats.H1.length =
      2 * ((trks.filter (trackAccepted tr quats poss cov)).map
        List.length).sum
    ∧ u.getInitMats.H2.length =
      2 * ((trks.filter (trackAccepted tr quats poss cov)).map
        List.length).sum
    ∧ u.getInitMats.r1.length =
      2 * ((trks.filter (trackAccepted tr quats poss cov)).map
        List.length).sum := by
  unfold msckfSlamUpdate at h
  split at h
  · exact absurd h (by simp)
  · split at h
    · exact absurd h (by simp)
    · split at h
      · exact absurd h (by simp)
      · simp only [Except.ok.injEq] at h
        subst h
        rw [runTracks_closed]
        simp [MsckfSlamUpdate.getInitMats, defaultMsckfSlamUpdate,
          emptyMats, stackH1_length, stackH2_length, stackRes_length]

theorem msckf_C2_witness :
    demoResult.getInitMats.H1.length =
      2 * ((demoTrks.filter (trackAccepted demoNumerics demoQuats demoPoss
        demoCov)).map List.length).sum
    ∧ demoResult.getInitMats.H2.length =
      2 * ((demoTrks.filter (trackAccepted demoNumerics demoQuats demoPoss
        demoCov)).map List.length).sum
    ∧ demoResult.getInitMats.r1.length =
      2 * ((demoTrks.filter (trackAccepted demoNumerics demoQuats demoPoss
        demoCov)).map List.length).sum :=
  msckf_C2_bundle_row_count demoTrks demoQuats demoPoss demoNumerics
    demoCov 2 (1/10) demoResult (by rfl)

/-- C3: every stacked output matrix is the concatenation, in `TrackList`
order, of the per-track contributions (the accepted tracks' blocks, empty
blocks for rejected tracks), so successive accepted tracks occupy
contiguous, non-overlapping row ranges in input order. -/
theorem msckf_C3_row_blocks_ordered (trks : TrackList)
    (quats : AttitudeList) (poss : TranslationList) (tr : Numerics)
    (cov : Matrix) (n : Nat) (sg : ℚ) (u : MsckfSlamUpdate)
    (h : msckfSlamUpdate trks quats poss tr cov n sg = .ok u) :
    u.getInitMats.H1 = stackH1 tr quats poss cov 0 trks
    ∧ u.getInitMats.H2 = stackH2 tr quats poss cov 0 trks
    ∧ u.getInitMats.r1 = stackRes tr quats poss cov 0 trks := by
  unfold msckfSlamUpdate at h
  split at h
  · exact absurd h (by simp)
  · split at h
    · exact absurd h (by simp)
    · split at h
      · exact absurd h (by simp)
      · simp only [Except.ok.injEq] at h
        subst h
        rw [runTracks_closed]
        simp [MsckfSlamUpdate.getInitMats, defaultMsckfSlamUpdate, emptyMats]

theorem msckf_C3_witness :
    demoResult.getInitMats.H1 =
      stackH1 demoNumerics demoQuats demoPoss demoCov 0 demoTrks
    ∧ demoResult.getInitMats.H2 =
      stackH2 demoNumerics demoQuats demoPoss demoCov 0 demoTrks
    ∧ demoResult.getInitMats.r1 =
      stackRes demoNumerics demoQuats demoPoss demoCov 0 demoTrks :=
  msckf_C3_row_blocks_ordered demoTrks demoQuats demoPoss demoNumerics
    demoCov 2 (1/10) demoResult (by rfl)

/-- C4: an empty `TrackList` (with a well-formed pose window) constructs
without error and yields the default object: zero bundle rows and empty
inlier and outlier lists. -/
theorem msckf_C4_empty_tracklist (quats : AttitudeList)
    (poss : TranslationList) (tr : Numerics) (cov : Matrix) (n : Nat)
    (sg : ℚ) (hlen : quats.length = poss.length)
    (hmax : quats.length ≤ n) :
    msckfSlamUpdate [] quats poss tr cov n sg = .ok defaultMsckfSlamUpdate
    ∧ defaultMsckfSlamUpdate.getInitMats.H1 = []
    ∧ defaultMsckfSlamUpdate.getInliers = []
    ∧ defaultMsckfSlamUpdate.getOutliers = [] := by
  refine ⟨?_, rfl, rfl, rfl⟩
  unfold msckfSlamUpdate
  rw [if_neg (by simp [hlen]), if_neg (by omega), if_neg (by simp)]
  rfl

theorem msckf_C4_witness :
    msckfSlamUpdate [] demoQuats demoPoss demoNumerics demoCov 2 (1/10)
      = .ok defaultMsckfSlamUpdate
    ∧ defaultMsckfSlamUpdate.getInitMats.H1 = []
    ∧ defaultMsckfSlamUpdate.getInliers = []
    ∧ defaultMsckfSlamUpdate.getOutliers = [] :=
  msckf_C4_empty_tracklist demoQuats demoPoss demoNumerics demoCov 2
    (1/10) (by decide) (by decide)

/-- C5: a triangulation failure on a track is non-fatal: the call still
succeeds, the track's point estimate is appended to `outliers_`, the track
contributes zero rows to the bundle, and the remaining tracks of the batch
are processed as usual. -/
theorem msckf_C5_triangulation_failure_nonfatal (t : Track)
    (rest : TrackList) (quats : AttitudeList) (poss : TranslationList)
    (tr : Numerics) (cov : Matrix) (n : Nat) (sg : ℚ)
    (hlen : quats.length = poss.length) (hmax : quats.length ≤ n)
    (hwin : ∀ t' ∈ t :: rest, t'.length ≤ quats.length)
    (hfail : (trackTri tr quats poss cov t).2 = false) :
    msckfSlamUpdate (t :: rest) quats poss tr cov n sg =
      .ok { init_mats :=
              { H1 := stackH1 tr quats poss cov 1 rest
                H2 := stackH2 tr quats poss cov 1 rest
                r1 := stackRes tr quats poss cov 1 rest
                S_diag := stackS tr quats poss cov (sg * sg) rest
                features := stackFeat tr quats poss cov 1 rest }
            inliers := inlierPts tr quats poss cov rest
            outliers := (trackTri tr quats poss cov t).1
              :: outlierPts tr quats poss cov rest } := by
  have haccf : trackAccepted tr quats poss cov t = false := by
    simp [trackAccepted, hfail]
  have hany : ((t :: rest).any fun t' =>
      decide (quats.length < t'.length)) = false := by
    simp only [List.any_eq_false, decide_eq_true_eq]
    intro x hx
    exact Nat.not_lt.mpr (hwin x hx)
  unfold msckfSlamUpdate
  rw [if_neg (by simp [hlen]), if_neg (by omega), if_neg (by simp [hany])]
  rw [runTracks_closed]
  simp [stackH1_cons, stackH2_cons, stackRes_cons, stackS_cons,
    stackFeat_cons, inlierPts_cons, outlierPts_cons, haccf,
    trackContribH1, trackContribH2, trackContribRes,
    defaultMsckfSlamUpdate, emptyMats]

theorem msckf_C5_witness :
    msckfSlamUpdate ([demoFeature] :: [[demoFeature, demoFeature]])
      demoQuats demoPoss demoNumerics demoCov 2 (1/10) =
      .ok { init_mats :=
              { H1 := stackH1 demoNumerics demoQuats demoPoss demoCov 1
                  [[demoFeature, demoFeature]]
                H2 := stackH2 demoNumerics demoQuats demoPoss demoCov 1
                  [[demoFeature, demoFeature]]
                r1 := stackRes demoNumerics demoQuats demoPoss demoCov 1
                  [[demoFeature, demoFeature]]
                S_diag := stackS demoNumerics demoQuats demoPoss demoCov
                  (1/10 * (1/10)) [[demoFeature, demoFeature]]
                features := stackFeat demoNumerics demoQuats demoPoss
                  demoCov 1 [[demoFeature, demoFeature]] }
            inliers := inlierPts demoNumerics demoQuats demoPoss demoCov
              [[demoFeature, demoFeature]]
            outliers := (trackTri demoNumerics demoQuats demoPoss demoCov
                [demoFeature]).1
              :: outlierPts demoNumerics demoQuats demoPoss demoCov
                [[demoFeature, demoFeature]] } :=
  msckf_C5_triangulation_failure_nonfatal [demoFeature]
    [[demoFeature, demoFeature]] demoQuats demoPoss demoNumerics demoCov 2
    (1/10) (by decide) (by decide) (by decide) (by decide)

/-- C6: a track referencing a pose index outside the current sliding
window, or mismatched pose-list lengths, takes the fatal
precondition-violation failure path: the call returns an error and no
result (in particular the track is not silently routed to `outliers_`). -/
theorem msckf_C6_precondition_fatal (trks : TrackList)
    (quats : AttitudeList) (poss : TranslationList) (tr : Numerics)
    (cov : Matrix) (n : Nat) (sg : ℚ)
    (h : quats.length ≠ poss.length
      ∨ ∃ t ∈ trks, quats.length < t.length) :
    isPrecondFailure (msckfSlamUpdate trks quats poss tr cov n sg)
      = true := by
  unfold msckfSlamUpdate
  by_cases h1 : quats.length ≠ poss.length
  · rw [if_pos h1]; rfl
  · rw [if_neg h1]
    rcases h with h | ⟨t, ht, hlt⟩
    · exact absurd h h1
    · by_cases h2 : n < quats.length
      · rw [if_pos h2]; rfl
      · rw [if_neg h2, if_pos (List.any_eq_true.mpr
          ⟨t, ht, by simpa using hlt⟩)]
        rfl

theorem msckf_C6_witness :
    isPrecondFailure (msckfSlamUpdate
      [[demoFeature, demoFeature, demoFeature]] demoQuats demoPoss
      demoNumerics demoCov 2 (1/10)) = true :=
  msckf_C6_precondition_fatal [[demoFeature, demoFeature, demoFeature]]
    demoQuats demoPoss demoNumerics demoCov 2 (1/10)
    (Or.inr ⟨[demoFeature, demoFeature, demoFeature], by simp, by decide⟩)

/-- C7: the error-state covariance and the pose lists are read-only: both
the constructor and `processOneTrack`, viewed as acting on the caller's
store, leave the covariance, attitude list and translation list exactly as
they were before the call. -/
theorem msckf_C7_inputs_unchanged (trks : TrackList) (tr : Numerics)
    (n : Nat) (sg : ℚ) (s s' : Store) (track : Track) (v : ℚ)
    (j rh r1 : Nat)
    (h : msckfSlamUpdateStore trks tr n sg s = .ok s') :
    (s'.cov = s.cov ∧ s'.quats = s.quats ∧ s'.poss = s.poss)
    ∧ ((processOneTrackStore track tr n v j rh r1 s).1.cov = s.cov
      ∧ (processOneTrackStore track tr n v j rh r1 s).1.quats = s.quats
      ∧ (processOneTrackStore track tr n v j rh r1 s).1.poss = s.poss) := by
  constructor
  · unfold msckfSlamUpdateStore at h
    split at h
    · exact absurd h (by simp)
    · simp only [Except.ok.injEq] at h
      subst h
      exact ⟨rfl, rfl, rfl⟩
  · exact ⟨rfl, rfl, rfl⟩

theorem msckf_C7_witness :
    (demoStoreResult.cov = demoStore.cov
      ∧ demoStoreResult.quats = demoStore.quats
      ∧ demoStoreResult.poss = demoStore.poss)
    ∧ ((processOneTrackStore [demoFeature] demoNumerics 2 (1/100) 0 0 0
          demoStore).1.cov = demoStore.cov
      ∧ (processOneTrackStore [demoFeature] demoNumerics 2 (1/100) 0 0 0
          demoStore).1.quats = demoStore.quats
      ∧ (processOneTrackStore [demoFeature] demoNumerics 2 (1/100) 0 0 0
          demoStore).1.poss = demoStore.poss) :=
  msckf_C7_inputs_unchanged demoTrks demoNumerics 2 (1/10) demoStore
    demoStoreResult [demoFeature] (1/100) 0 0 0 (by rfl)

/-- C8: construction is deterministic: two invocations of the constructor
on identical inputs yield identical initialization matrices, inlier lists
and outlier lists. -/
theorem msckf_C8_deterministic (trks : TrackList) (quats : AttitudeList)
    (poss : TranslationList) (tr : Numerics) (cov : Matrix) (n : Nat)
    (sg : ℚ) (u₁ u₂ : MsckfSlamUpdate)
    (h₁ : msckfSlamUpdate trks quats poss tr cov n sg = .ok u₁)
    (h₂ : msckfSlamUpdate trks quats poss tr cov n sg = .ok u₂) :
    u₁.getInitMats = u₂.getInitMats ∧ u₁.getInliers = u₂.getInliers
      ∧ u₁.getOutliers = u₂.getOutliers := by
  have h := h₁.symm.trans h₂
  simp only [Except.ok.injEq] at h
  subst h
  exact ⟨rfl, rfl, rfl⟩

theorem msckf_C8_witness :
    demoResult.getInitMats = demoResult.getInitMats
    ∧ demoResult.getInliers = demoResult.getInliers
    ∧ demoResult.getOutliers = demoResult.getOutliers :=
  msckf_C8_deterministic demoTrks demoQuats demoPoss demoNumerics demoCov
    2 (1/10) demoResult demoResult (by rfl) (by rfl)

/-- C9: the construction terminates and is exactly one synchronous pass:
the orchestrator loop equals a single left fold of `processOneTrack` over
the tracks paired with their indices in `TrackList` order (each track
visited once, no retries), and every pass classifies each input track into
one of the two point lists. -/
theorem msckf_C9_single_pass (quats : AttitudeList)
    (poss : TranslationList) (tr : Numerics) (cov : Matrix) (n : Nat)
    (v : ℚ) (ts : List Track) :
    (∀ (j : Nat) (acc : MsckfSlamUpdate × Nat × Nat),
      runTracks quats poss tr cov n v ts j acc =
        (ts.enumFrom j).foldl
          (fun a pr =>
            processOneTrack pr.2 quats poss tr cov n v pr.1 a.1 a.2.1
              a.2.2) acc)
    ∧ (∀ (j : Nat) (u : MsckfSlamUpdate) (rh r1 : Nat),
        ((runTracks quats poss tr cov n v ts j (u, rh, r1)).1.getInliers).length
          + ((runTracks quats poss tr cov n v ts j
              (u, rh, r1)).1.getOutliers).length
          = u.getInliers.length + u.getOutliers.length + ts.length) := by
  constructor
  · induction ts with
    | nil => intro j acc; simp [runTracks, List.enumFrom]
    | cons t ts ih =>
        intro j acc
        simp [runTracks, List.enumFrom, ih]
  · intro j u rh r1
    rw [runTracks_closed]
    have hp := points_partition tr quats poss cov ts
    simp [MsckfSlamUpdate.getInliers, MsckfSlamUpdate.getOutliers]
    omega

/-- C10: a default-constructed `MsckfSlamUpdate` has empty initialization
matrices and empty inlier and outlier lists, and the three getters are
observationally pure: acting on the store they leave it unchanged and
repeated calls return the same value. -/
theorem msckf_C10_default_empty_getters_pure :
    defaultMsckfSlamUpdate.getInitMats = emptyMats
    ∧ emptyMats.H1 = [] ∧ emptyMats.H2 = [] ∧ emptyMats.r1 = []
    ∧ emptyMats.S_diag = [] ∧ emptyMats.features = []
    ∧ defaultMsckfSlamUpdate.getInliers = []
    ∧ defaultMsckfSlamUpdate.getOutliers = []
    ∧ (∀ s : Store,
        (getInitMatsStore s).2 = s
        ∧ (getInliersStore s).2 = s
        ∧ (getOutliersStore s).2 = s
        ∧ (getInitMatsStore ((getInitMatsStore s).2)).1
            = (getInitMatsStore s).1
        ∧ (getInliersStore ((getInliersStore s).2)).1
            = (getInliersStore s).1
        ∧ (getOutliersStore ((getOutliersStore s).2)).1
            = (getOutliersStore s).1) :=
  ⟨rfl, rfl, rfl, rfl, rfl, rfl, rfl, rfl,
    fun _ => ⟨rfl, rfl, rfl, rfl, rfl, rfl⟩⟩

end X
